import Mathlib

/-!
Verification of the directory-completeness checker
`postprocess/check_for_full_data.py` of NCAR/NA-CORDEX-CMIP6.

The Python module is shallowly embedded below.  Filesystem effects
(`os.listdir`, `glob.glob`, `os.path.exists`) are modelled by an explicit
`FileSystem` record; `sys.exit(msg)` (together with the diagnostic lines
printed just before it) is modelled by `Except.error (msg, printed_lines)`;
Python `int` is `Int`; the module-level "Set the following" globals are
gathered into a `Config` record whose default value carries the literal
values of the source.  Regular-expression matches are translated to
executable functions on `List Char` that implement the exact (greedy /
leftmost) semantics of the patterns appearing in the source.
-/

namespace CheckForFullData

/-! ### Basic string machinery (models of Python str/re primitives) -/

/-- Digit characters of a 4-digit group to the natural number they denote
(model of Python `int(match.group(1))` on an all-digit group). -/
def digitsToNat (cs : List Char) : Nat :=
  cs.foldl (fun acc c => 10 * acc + (c.toNat - 48)) 0

/-- Model of Python `int(s)` for the all-digit strings produced by the
regex groups of the source. -/
def strToInt (s : String) : Int :=
  Int.ofNat (digitsToNat s.data)

/-- Boolean list-prefix test (used to model glob prefix matching and
literal sub-pattern matching). -/
def listIsPrefixOfB : List Char → List Char → Bool
  | [], _ => true
  | _ :: _, [] => false
  | a :: as, b :: bs => a == b && listIsPrefixOfB as bs

/-- Boolean membership of a string in a list of strings (model of the
Python `in` tests on lists of filenames). -/
def strMem (xs : List String) (e : String) : Bool :=
  xs.any (fun x => decide (x = e))

/-- Python `str(n).zfill(2)` for the month and day numbers `1..31`. -/
def zfill2 (n : Nat) : String :=
  if n < 10 then "0" ++ toString n else toString n

/-- Model of `os.path.join a b`: an absolute second component discards the
first, otherwise the components are joined with `/` (no duplicate slash
when `a` already ends in one). -/
def joinPath (a b : String) : String :=
  if listIsPrefixOfB ['/'] b.data then b
  else if a = "" then b
  else if listIsPrefixOfB ['/'] a.data.reverse then a ++ b
  else a ++ "/" ++ b

/-- Model of `os.path.dirname` for the plain absolute script paths of the
source: everything before the last `/` (empty when there is none). -/
def dirnameOf (path : String) : String :=
  let cs := path.data
  let is := (List.range cs.length).filter (fun i => (cs.getD i ' ') == '/')
  match is.getLast? with
  | some i => String.mk (cs.take i)
  | none => ""

/-- Python lexicographic (code-point) `<=` on character lists, used by
`list.sort()` on directory names. -/
def charListLE : List Char → List Char → Bool
  | [], _ => true
  | _ :: _, [] => false
  | a :: as, b :: bs =>
    if a.toNat < b.toNat then true
    else if b.toNat < a.toNat then false
    else charListLE as bs

/-- Python `list.sort()` on strings (stable ascending sort by code
points), realised by Mathlib insertion sort. -/
def pySortedStr (l : List String) : List String :=
  l.insertionSort (fun a b => charListLE a.data b.data = true)

/-- Python `list.sort()` on integers. -/
def pySorted (l : List Int) : List Int :=
  l.insertionSort (· ≤ ·)

/-- Python `range(a, b)` over `Int`. -/
def pyRange (a b : Int) : List Int :=
  (List.range (b - a).toNat).map (fun (k : Nat) => a + (k : Int))

/-- Python `range(a, b, step)` over `Int` for a positive `step` (the only
shape the source uses; `step = 0` would raise `ValueError`). -/
def pyRangeStep (a b step : Int) : List Int :=
  if 0 < step then
    (List.range (((b - a + step - 1) / step).toNat)).map
      (fun (k : Nat) => a + step * (k : Int))
  else []

/-- Sequencing of an option-valued map over a list, stopping at the first
failure: the model of a Python `for` loop whose body raises on a failed
regex match (`AttributeError` on `None.group`). -/
def optionMapList (f : α → Option β) : List α → Option (List β)
  | [] => some []
  | a :: as =>
    match f a with
    | none => none
    | some b =>
      match optionMapList f as with
      | none => none
      | some bs => some (b :: bs)

/-! ### Configuration ("Set the following" globals) and constants -/

/-- The module-level user configuration of `check_for_full_data.py`. -/
structure Config where
  BASEDIR : String
  TOTAL_YEARS_IN_SIMULATION : Int
  NUMBER_OF_YEARS_WITHIN_SIMULATION : Int
  SEVENTH_YEAR_OF_DECADE : Bool
  YEAR_INCREMENT : Int
  ORDINAL_START_YEAR : Int

/-- The literal values assigned in the source. -/
def defaultConfig : Config where
  BASEDIR := "/glade/derecho/scratch/jsallen/NA-CORDEX-CMIP6/ERA5_HIST_E03/wrf_d01"
  TOTAL_YEARS_IN_SIMULATION := 40
  NUMBER_OF_YEARS_WITHIN_SIMULATION := 13
  SEVENTH_YEAR_OF_DECADE := true
  YEAR_INCREMENT := 10
  ORDINAL_START_YEAR := 2

def CMORIZE_SCRIPT : String :=
  "/glade/u/home/minnawin/NA-CORDEX/NA-CORDEX-CMIP6/postprocess/cmorize.compress.sh"

def POST_PROCESS_SCRIPT : String :=
  "/glade/u/home/minnawin/NA-CORDEX/NA-CORDEX-CMIP6/postprocess/postprocess.core.variables.py"

def PLOT_OUTPUT_DIR : String := "/glade/u/home/minnawin/NA-CORDEX/Output/plots"

def EXPECTED_NUM_FILES : Nat := 365

def EXPECTED_NUM_FILES_LEAP_YEAR : Nat := 366

def EXPECTED_NUM_FILENAME_PATTERNS : Nat := 6

/-- The `DAYS_IN_MONTH` dict of the source, verbatim (note that the source
maps `'01'` to `30`).  Keys outside the dict would raise `KeyError` in
Python; the source only ever looks up the listed keys. -/
def DAYS_IN_MONTH (key : String) : Nat :=
  if key = "01" then 30
  else if key = "02" then 28
  else if key = "02_leap" then 29
  else if key = "03" then 31
  else if key = "04" then 30
  else if key = "05" then 31
  else if key = "06" then 30
  else if key = "07" then 31
  else if key = "08" then 31
  else if key = "09" then 30
  else if key = "10" then 31
  else if key = "11" then 30
  else if key = "12" then 31
  else 0

/-! ### The filesystem model -/

/-- The parts of the filesystem the script inspects: the listing of the
base directory, the listing of any directory given by full path, and path
existence (for the two helper scripts). -/
structure FileSystem where
  baseDirListing : List String
  dirListing : String → List String
  pathExists : String → Bool

/-! ### is_leap_year (lines 367-396 of the source) -/

/-- `is_leap_year` exactly as written in the source (nested `if` on
`% 4`, `% 100`, `% 400`). -/
def is_leap_year (year : Int) : Bool :=
  if year % 4 = 0 then
    if year % 100 = 0 then
      if year % 400 = 0 then true
      else false
    else true
  else false

/-! ### Regex models

Each function below implements the exact greedy/leftmost semantics of one
regular expression of the source, as an executable function on the
character list of the subject string. -/

/-- Tail matcher for `\d{2}:\d{2}:\d{2}` followed by `.*`. -/
def hhmmssTail (cs : List Char) : Bool :=
  match cs with
  | a :: b :: ':' :: c :: d :: ':' :: e :: f :: _ =>
    a.isDigit && b.isDigit && c.isDigit && d.isDigit && e.isDigit && f.isDigit
  | _ => false

/-- Matcher for `\d{1,2}` (greedy, with backtracking) followed by a
continuation `k` on the remaining characters. -/
def oneOrTwoDigitsThen (k : List Char → Bool) (cs : List Char) : Bool :=
  match cs with
  | a :: b :: rest => a.isDigit && ((b.isDigit && k rest) || k (b :: rest))
  | [a] => a.isDigit && k []
  | [] => false

/-- Matcher for the suffix `-\d{1,2}-\d{1,2}_\d{2}:\d{2}:\d{2}.*` of the
filename pattern `r'(.*\d{4})-\d{1,2}-\d{1,2}_\d{2}:\d{2}:\d{2}.*'`
(line 140 of the source). -/
def dateTimeTail (cs : List Char) : Bool :=
  match cs with
  | '-' :: rest =>
    oneOrTwoDigitsThen (fun r1 =>
      match r1 with
      | '-' :: r2 =>
        oneOrTwoDigitsThen (fun r3 =>
          match r3 with
          | '_' :: r4 => hhmmssTail r4
          | _ => false) r2
      | _ => false) rest
  | _ => false

/-- `re.search(r'(.*\d{4})-\d{1,2}-\d{1,2}_\d{2}:\d{2}:\d{2}.*', cur_file)`
and extraction of `group(1)` (line 140-143 of the source): since the
pattern starts with `.*`, a search match always starts at index 0, and the
greedy group is the longest prefix that ends in four digits and is
followed by the date-time tail. -/
def familyOfFilename (cur_file : String) : Option String :=
  let cs := cur_file.data
  let js := (List.range (cs.length + 1)).filter (fun j =>
    decide (4 ≤ j) && ((cs.take j).drop (j - 4)).all Char.isDigit && dateTimeTail (cs.drop j))
  match js.getLast? with
  | some j => some (String.mk (cs.take j))
  | none => none

/-- `re.match(r'.*_(\d{4})', fp)` and `int(match.group(1))` (lines 220-221
and 250-251 of the source): the greedy `.*` selects the last underscore
that is followed by at least four digits; the group is those four digits. -/
def yearOfPattern (fp : String) : Option Nat :=
  let cs := fp.data
  let is := (List.range cs.length).filter (fun i =>
    ((cs.getD i ' ') == '_') && (((cs.drop (i + 1)).take 4).length == 4)
      && ((cs.drop (i + 1)).take 4).all Char.isDigit)
  match is.getLast? with
  | some i => some (digitsToNat ((cs.drop (i + 1)).take 4))
  | none => none

/-- `re.search(r'(\d{4})_chunk', dir)` (line 338 of the source, the branch
taken when `SEVENTH_YEAR_OF_DECADE` is true): the leftmost position where
four digits are immediately followed by `_chunk`. -/
def matchChunkSeventhMode (dir : String) : Option String :=
  let cs := dir.data
  let is := (List.range cs.length).filter (fun i =>
    (((cs.drop i).take 4).length == 4) && ((cs.drop i).take 4).all Char.isDigit
      && listIsPrefixOfB "_chunk".data (cs.drop (i + 4)))
  is.head?.map (fun i => String.mk ((cs.drop i).take 4))

/-- `re.match(r'(\d{3}7)_chunk', dir)` (line 341 of the source, the branch
taken when `SEVENTH_YEAR_OF_DECADE` is false): anchored at the start,
three digits, a literal `7`, then `_chunk`. -/
def matchChunkPlainMode (dir : String) : Option String :=
  match dir.data with
  | a :: b :: c :: d :: rest =>
    if a.isDigit && b.isDigit && c.isDigit && (d == '7')
        && listIsPrefixOfB "_chunk".data rest then
      some (String.mk [a, b, c, d])
    else none
  | _ => none

/-- `re.match(r'(.*)_\$', output_filename_expr)` and `group(1)` (lines
508-509 of the source; the source names the group `partial_expression`):
the greedy group is everything before the last occurrence of `_$`. -/
def template_static_portion (output_filename_expr : String) : Option String :=
  let cs := output_filename_expr.data
  let js := (List.range cs.length).filter (fun j =>
    ((cs.getD j ' ') == '_') && ((cs.getD (j + 1) ' ') == '$'))
  match js.getLast? with
  | some j => some (String.mk (cs.take j))
  | none => none

/-! ### check_for_all_chunk_dirs (lines 305-364 of the source) -/

/-- The exit message of line 344 (an f-string mentioning `BASEDIR`). -/
def noChunkDirsMsg (cfg : Config) : String :=
  "No directories with YEAR_chunk name were found in " ++ cfg.BASEDIR

/-- Errors are a `sys.exit` message paired with the diagnostic items the
script prints or interpolates alongside it (missing-file lists, the
`missing_dirs` list of line 360). -/
abbrev PyExit := String × List String

/-- `check_for_all_chunk_dirs`: list and sort the base directory, match
every entry against the mode-selected chunk-name pattern (exiting at the
first non-match), then keep only discovered years that lie inside the
expected arithmetic sequence, exiting when any discovered year falls
outside it.  Note the source never compares the expected sequence against
the discovered set in the other direction. -/
def check_for_all_chunk_dirs (cfg : Config) (fs : FileSystem) :
    Except PyExit (List String) :=
  let chunk_dirs_found := pySortedStr fs.baseDirListing
  match optionMapList (fun dir =>
      if cfg.SEVENTH_YEAR_OF_DECADE then matchChunkSeventhMode dir
      else matchChunkPlainMode dir) chunk_dirs_found with
  | none => Except.error (noChunkDirsMsg cfg, [])
  | some chunk_years =>
    match chunk_years with
    | [] => Except.error ("IndexError: list index out of range", [])
    | cy0 :: _ =>
      let first_year : Int := strToInt cy0
      let expected_last_year : Int := first_year + cfg.TOTAL_YEARS_IN_SIMULATION
      let expected_years : List Int :=
        pyRangeStep first_year (expected_last_year + 1) cfg.YEAR_INCREMENT
      let missing_dirs : List String :=
        chunk_years.filter (fun cur_yr => decide (strToInt cur_yr ∉ expected_years))
      if 0 < missing_dirs.length then
        Except.error ("Missing the following chunk directories: ", missing_dirs)
      else
        Except.ok (chunk_dirs_found.map (fun cur_chunk => joinPath cfg.BASEDIR cur_chunk))

/-! ### check_for_all_files (lines 170-301 of the source) -/

/-- `years_of_interest` exactly as computed on lines 226-231: drop the
first `ORDINAL_START_YEAR - 1` years and the final year of the chunk's
nominal span. -/
def years_of_interest_of (cfg : Config) (first_year : Int) : List Int :=
  let last_year := first_year + cfg.NUMBER_OF_YEARS_WITHIN_SIMULATION
  let adjusted_last_year := last_year - 1
  let start_year_increment := cfg.ORDINAL_START_YEAR - 1
  let adjusted_first_year := first_year + start_year_increment
  pyRange adjusted_first_year adjusted_last_year

/-- `glob.glob(os.path.join(chunk_dir, cur_file_pattern) + "*")`: the
files of the chunk directory that start with the pattern, returned with
the directory joined on (lines 253-256 of the source). -/
def glob_matches (fs : FileSystem) (chunk_dir cur_file_pattern : String) : List String :=
  ((fs.dirListing chunk_dir).filter
    (fun f => listIsPrefixOfB cur_file_pattern.data f.data)).map
      (fun f => joinPath chunk_dir f)

/-- The missing-file reconstruction loops of lines 266-275 (leap) and
282-288 (non-leap); both branches run the same loop except that February
looks up `'02_leap'` in the leap case, so they are factored here with a
`leap` flag.  Month lengths come from the `DAYS_IN_MONTH` dict of the
source. -/
def missing_files_for (cfg : Config) (chunk_dir cur_file_pattern : String)
    (matched_files_found : List String) (leap : Bool) : List String :=
  let hms : String := "_00:00:00"
  ((List.range 12).map (· + 1)).flatMap (fun m =>
    let days_in_month :=
      if leap && (m == 2) then DAYS_IN_MONTH "02_leap" else DAYS_IN_MONTH (zfill2 m)
    ((List.range days_in_month).map (· + 1)).filterMap (fun d =>
      let expected_file := cur_file_pattern ++ "-" ++ zfill2 m ++ "-" ++ zfill2 d ++ hms
      let expected_full_file := joinPath cfg.BASEDIR (joinPath chunk_dir expected_file)
      if strMem matched_files_found expected_full_file then none
      else some expected_full_file))

/-- One iteration of the `for cur_file_pattern in ...` loop of lines
246-288.  The accumulator carries `(valid_years, missing_files, missing)`. -/
def pattern_step (cfg : Config) (fs : FileSystem) (chunk_dir : String)
    (years_of_interest : List Int) (acc : List Int × List String × Bool)
    (cur_file_pattern : String) : List Int × List String × Bool :=
  match yearOfPattern cur_file_pattern with
  | none => acc
  | some y =>
    let file_year : Int := Int.ofNat y
    if file_year ∈ years_of_interest then
      let matched_files_found := glob_matches fs chunk_dir cur_file_pattern
      let num_files := matched_files_found.length
      if is_leap_year file_year then
        if num_files = EXPECTED_NUM_FILES_LEAP_YEAR then
          (acc.1 ++ [file_year], acc.2.1, acc.2.2)
        else
          (acc.1,
           acc.2.1 ++ missing_files_for cfg chunk_dir cur_file_pattern matched_files_found true,
           true)
      else
        if num_files = EXPECTED_NUM_FILES then
          (acc.1 ++ [file_year], acc.2.1, acc.2.2)
        else
          (acc.1,
           acc.2.1 ++ missing_files_for cfg chunk_dir cur_file_pattern matched_files_found false,
           true)
    else acc

/-- `check_for_all_files`: extract the year of every filename pattern
(`AttributeError` when a pattern has none), sort, take the first (minimal)
year, build the years of interest, then run the per-pattern counting loop;
exit with the accumulated missing-file report when any pattern fell
short, otherwise return the chunk's valid years.  The `missing_years`
list of lines 233-236 is computed by the source but never used
afterwards; it is kept here under the same name. -/
def check_for_all_files (cfg : Config) (fs : FileSystem) (chunk_dir : String)
    (all_file_patterns_for_chunkdir : List String) :
    Except PyExit (List (String × List Int)) :=
  match optionMapList yearOfPattern all_file_patterns_for_chunkdir with
  | none => Except.error ("AttributeError: NoneType object has no attribute group", [])
  | some ys =>
    match pySorted (ys.map Int.ofNat) with
    | [] => Except.error ("IndexError: list index out of range", [])
    | first_year :: _ =>
      let years_of_interest := years_of_interest_of cfg first_year
      let missing_years := years_of_interest.filter
        (fun expected => decide (expected ∉ ys.map Int.ofNat))
      let r := all_file_patterns_for_chunkdir.foldl
        (pattern_step cfg fs chunk_dir years_of_interest) ([], [], false)
      let _ := missing_years
      if r.2.2 then Except.error ("Exiting due to missing files", r.2.1)
      else Except.ok [(chunk_dir, r.1)]

/-! ### check_dirs_for_data (lines 99-167 of the source) -/

/-- The per-directory family inventory of lines 134-146: every file whose
name matches the date-time pattern contributes its pattern prefix; the
Python `set` is modelled as first-occurrence deduplication. -/
def unique_filename_dates_of (fs : FileSystem) (cur_dir : String) : List String :=
  ((fs.dirListing cur_dir).filterMap familyOfFilename).foldl
    (fun acc f => if strMem acc f then acc else acc ++ [f]) []

/-- `check_dirs_for_data`: resolve the chunk directories, inventory each
directory's filename-pattern families, then loop over the directories.
Note the comparison of line 155: the source exits with "Insufficient
number of filename patterns." exactly when the family count EQUALS
`EXPECTED_NUM_FILENAME_PATTERNS`, and proceeds to the per-file count
otherwise. -/
def check_dirs_for_data (cfg : Config) (fs : FileSystem) :
    Except PyExit (List (String × List Int)) :=
  match check_for_all_chunk_dirs cfg fs with
  | Except.error e => Except.error e
  | Except.ok complete_chunk_dirs =>
    let dir_of_unique_filenames : List (String × List String) :=
      complete_chunk_dirs.map (fun cur_dir => (cur_dir, unique_filename_dates_of fs cur_dir))
    dir_of_unique_filenames.foldlM (fun all_files kv =>
      if kv.2.length = EXPECTED_NUM_FILENAME_PATTERNS then
        Except.error ("Insufficient number of filename patterns.", [])
      else
        match check_for_all_files cfg fs kv.1 kv.2 with
        | Except.error e => Except.error e
        | Except.ok all_files_present => Except.ok (all_files ++ all_files_present)) []

/-! ### invoke_postprocessing (lines 399-440 of the source) -/

/-- `invoke_postprocessing`: after the script-location checks, flatten the
per-chunk year lists and run the post-processing script once per year
with the single argument `str(cur_year)` (lines 433-438).  The returned
pair is (the argument list of every `subprocess.run` performed, the
flattened year list the function returns). -/
def invoke_postprocessing (fs : FileSystem)
    (all_files : List (String × List Int)) :
    Except PyExit (List (List String) × List Int) :=
  if !fs.pathExists CMORIZE_SCRIPT then
    Except.error ("cmorize.compress.sh script not found", [])
  else if !fs.pathExists POST_PROCESS_SCRIPT then
    Except.error ("postprocess.core.variables.py not found", [])
  else if dirnameOf CMORIZE_SCRIPT ≠ dirnameOf POST_PROCESS_SCRIPT then
    Except.error
      ("cmorize.compress.sh does not reside in same dir as postprocees.core.variables.py", [])
  else
    let all_years_flattened := all_files.flatMap (fun kv => kv.2)
    let invocations := all_years_flattened.map (fun cur_year => [toString cur_year])
    Except.ok (invocations, all_years_flattened)

/-! ### plots_already_exist (lines 493-528 of the source) -/

/-- `plots_already_exist`: take the static portion of the template,
substitute each year and append `.png`, and report whether every expected
plot file is present in the listing of `PLOT_OUTPUT_DIR`. -/
def plots_already_exist (fs : FileSystem) (output_filename_expr : String)
    (years : List Int) : Except PyExit Bool :=
  match template_static_portion output_filename_expr with
  | none => Except.error ("AttributeError: NoneType object has no attribute group", [])
  | some static_portion =>
    let expected_files := years.map (fun y => static_portion ++ "_" ++ toString y ++ ".png")
    let actual_plot_files := fs.dirListing PLOT_OUTPUT_DIR
    let num_found :=
      (expected_files.filter (fun expected => strMem actual_plot_files expected)).length
    if num_found = expected_files.length then Except.ok true else Except.ok false

/-! ### The `__main__` block (lines 531-546 of the source) -/

/-- The argument lists passed to `subprocess.run` over one run of the
script: empty when `check_dirs_for_data` exits (its `sys.exit` fires
before `invoke_postprocessing` is ever reached), and the invocation list
of `invoke_postprocessing` when the check succeeds with a non-empty
report (`if bool(all_files)`). -/
def main_invocations (cfg : Config) (fs : FileSystem) : List (List String) :=
  match check_dirs_for_data cfg fs with
  | Except.error _ => []
  | Except.ok all_files =>
    if all_files.length ≠ 0 then
      match invoke_postprocessing fs all_files with
      | Except.error _ => []
      | Except.ok r => r.1
    else []

/-! ### Specification-side predicates (written from the claim wording, for
comparison against the source-derived matchers) -/

/-- Claim wording for the seventh-year-of-decade mode: the name contains a
4-digit year immediately followed by the chunk suffix somewhere. -/
def ContainsYearChunk (s : String) : Prop :=
  ∃ i, i + 4 ≤ s.data.length ∧ (∀ c ∈ (s.data.drop i).take 4, c.isDigit = true) ∧
    "_chunk".data <+: s.data.drop (i + 4)

/-- Claim wording for the inactive mode: any 4-digit year followed by
`_chunk`, anchored at the start of the name. -/
def StartsWithYearChunk (s : String) : Prop :=
  ∃ a b c d rest, s.data = a :: b :: c :: d :: rest ∧ a.isDigit = true ∧
    b.isDigit = true ∧ c.isDigit = true ∧ d.isDigit = true ∧ "_chunk".data <+: rest

/-- What the source's inactive-mode regex `(\d{3}7)_chunk` actually
requires: three digits, the literal digit `7`, then `_chunk`, anchored at
the start. -/
def StartsWithYear7Chunk (s : String) : Prop :=
  ∃ a b c rest, s.data = a :: b :: c :: '7' :: rest ∧ a.isDigit = true ∧
    b.isDigit = true ∧ c.isDigit = true ∧ "_chunk".data <+: rest

/-! ### Concrete fixtures used to evaluate the embedded script -/

/-- The default configuration with a short base directory, for readable
concrete scenarios. -/
def cfgSmall : Config := { defaultConfig with BASEDIR := "/b" }

/-- One day of data for each of the six expected filename-pattern
families of the source's comment block (lines 124-130). -/
def sixFamilyFiles : List String :=
  ["wrfout_d01_1978-01-01_00:00:00", "wrfout_hour_d01_1978-01-01_00:00:00",
   "wrfout_pres_d01_1978-01-01_00:00:00", "wrfout_zlev_d01_1978-01-01_00:00:00",
   "wrfout_afwa_d01_1978-01-01_00:00:00", "wrfrst_d01_1978-01-01_00:00:00"]

/-- A base directory holding one chunk directory that contains exactly the
six expected families. -/
def fsSixFamilies : FileSystem where
  baseDirListing := ["1977_chunk"]
  dirListing := fun d => if d = "/b/1977_chunk" then sixFamilyFiles else []
  pathExists := fun _ => true

/-- The same base directory, but the chunk contains only five families. -/
def fsFiveFamilies : FileSystem where
  baseDirListing := ["1977_chunk"]
  dirListing := fun d => if d = "/b/1977_chunk" then sixFamilyFiles.take 5 else []
  pathExists := fun _ => true

/-- A base directory whose chunk sequence has a gap: `1987_chunk` is
absent between `1977_chunk` and `1997_chunk`. -/
def fsChunkGap : FileSystem where
  baseDirListing := ["1977_chunk", "1997_chunk"]
  dirListing := fun _ => []
  pathExists := fun _ => true

/-- A single chunk directory that contains no files at all. -/
def fsEmptyChunk : FileSystem where
  baseDirListing := ["1977_chunk"]
  dirListing := fun _ => []
  pathExists := fun _ => true

/-- An empty base directory. -/
def fsEmptyBase : FileSystem where
  baseDirListing := []
  dirListing := fun _ => []
  pathExists := fun _ => true

/-- The inactive-mode (plain `YYYY_chunk`) configuration. -/
def cfgPlainMode : Config :=
  { defaultConfig with BASEDIR := "/b", SEVENTH_YEAR_OF_DECADE := false }

/-- A base directory holding one chunk whose year does not end in 7. -/
def fsPlain : FileSystem where
  baseDirListing := ["1984_chunk"]
  dirListing := fun _ => []
  pathExists := fun _ => true

/-- A plot output directory holding exactly one generated plot. -/
def fsPlots : FileSystem where
  baseDirListing := []
  dirListing := fun d => if d = PLOT_OUTPUT_DIR then ["plot_1978.png"] else []
  pathExists := fun _ => true

/-! ### General-purpose lemmas about the embedding -/

lemma mem_pyRange {a b y : Int} : y ∈ pyRange a b ↔ a ≤ y ∧ y < b := by
  unfold pyRange
  constructor
  · intro h
    obtain ⟨k, hk, he⟩ := List.mem_map.mp h
    have hk2 := List.mem_range.mp hk
    omega
  · intro hy
    exact List.mem_map.mpr ⟨(y - a).toNat, List.mem_range.mpr (by omega), by omega⟩

lemma head_pySorted_min {l : List Int} {fy : Int} (h : (pySorted l).head? = some fy) :
    fy ∈ l ∧ ∀ x ∈ l, fy ≤ x := by
  have hperm : List.Perm (pySorted l) l := List.perm_insertionSort _ l
  have hs : List.Sorted (· ≤ ·) (pySorted l) := List.sorted_insertionSort _ l
  cases he : pySorted l with
  | nil => rw [he] at h; cases h
  | cons a t =>
    rw [he] at h hperm hs
    simp only [List.head?] at h
    cases h
    constructor
    · exact hperm.mem_iff.mp (List.mem_cons_self _ _)
    · intro x hx
      rcases List.mem_cons.mp (hperm.mem_iff.mpr hx) with rfl | hxt
      · exact le_refl x
      · exact (List.sorted_cons.mp hs).1 x hxt

lemma strMem_iff (xs : List String) (e : String) : strMem xs e = true ↔ e ∈ xs := by
  unfold strMem
  simp

lemma listIsPrefixOfB_iff (p s : List Char) : listIsPrefixOfB p s = true ↔ p <+: s := by
  induction p generalizing s with
  | nil => simp [listIsPrefixOfB]
  | cons a as ih =>
    cases s with
    | nil => simp [listIsPrefixOfB]
    | cons b bs =>
      simp [listIsPrefixOfB, ih, List.cons_prefix_cons]

lemma optionMapList_none_of_mem {α β} (f : α → Option β) {l : List α} {a : α}
    (ha : a ∈ l) (hf : f a = none) : optionMapList f l = none := by
  induction l with
  | nil => cases ha
  | cons x xs ih =>
    rcases List.mem_cons.mp ha with rfl | hxs
    · simp [optionMapList, hf]
    · unfold optionMapList
      cases hfx : f x with
      | none => rfl
      | some b => rw [ih hxs]

lemma head?_filter_isSome {α} (p : α → Bool) (l : List α) :
    ((l.filter p).head?.isSome = true) ↔ ∃ x ∈ l, p x = true := by
  constructor
  · intro hs
    cases h : l.filter p with
    | nil => rw [h] at hs; cases hs
    | cons a t =>
      have ha : a ∈ l.filter p := h ▸ List.mem_cons_self a t
      have := List.mem_filter.mp ha
      exact ⟨a, this.1, this.2⟩
  · rintro ⟨x, hx, hpx⟩
    have hmem : x ∈ l.filter p := List.mem_filter.mpr ⟨hx, hpx⟩
    cases h : l.filter p with
    | nil => rw [h] at hmem; cases hmem
    | cons a t => rfl

lemma filter_length_eq_iff {α} (p : α → Bool) (l : List α) :
    ((l.filter p).length = l.length) ↔ ∀ a ∈ l, p a = true := by
  induction l with
  | nil => simp
  | cons a t ih =>
    by_cases h : p a = true
    · simp [List.filter_cons, h, ih]
    · have hle := List.length_filter_le p t
      simp only [List.filter_cons, h]
      simp only [Bool.false_eq_true, if_false, List.length_cons, List.mem_cons]
      constructor
      · intro hlen; omega
      · intro hall; exact absurd (hall a (Or.inl rfl)) h

/-! ### Claim theorems -/

/-- Claim C8: `is_leap_year` implements the Gregorian rule exactly —
divisible by 4 and not (divisible by 100 and not divisible by 400) — as a
total function on integers, with the six fixture years behaving as the
specification lists. -/
theorem C8_is_leap_year_gregorian :
    (∀ year : Int, is_leap_year year =
      (decide (year % 4 = 0) && !(decide (year % 100 = 0) && !decide (year % 400 = 0)))) ∧
    is_leap_year 2000 = true ∧ is_leap_year 1900 = false ∧ is_leap_year 2024 = true ∧
    is_leap_year 2023 = false ∧ is_leap_year 2400 = true ∧ is_leap_year 2100 = false := by
  refine ⟨fun year => ?_, by decide, by decide, by decide, by decide, by decide, by decide⟩
  by_cases h4 : year % 4 = 0 <;> by_cases h100 : year % 100 = 0 <;>
    by_cases h400 : year % 400 = 0 <;> simp [is_leap_year, h4, h100, h400]

set_option maxRecDepth 20000 in
/-- Claim C1 is refuted by the code as written: on a chunk directory that
contains exactly the six expected filename-pattern families the script
exits with "Insufficient number of filename patterns." (line 155 compares
with `==` and exits on equality), while on a chunk with only five
families it proceeds past the family-count gate into per-file counting
and returns normally. -/
theorem C1_family_count_gate_inverted :
    check_dirs_for_data cfgSmall fsSixFamilies =
      Except.error ("Insufficient number of filename patterns.", []) ∧
    check_dirs_for_data cfgSmall fsFiveFamilies =
      Except.ok [("/b/1977_chunk", [])] := by
  exact ⟨rfl, rfl⟩

set_option maxRecDepth 20000 in
/-- Claim C5 is refuted by the code as written: with first year 1977,
increment 10 and total span 40, a base directory listing only
`1977_chunk` and `1997_chunk` resolves successfully even though the
expected year 1987 (a member of the expected arithmetic sequence) has no
directory — the source only checks that discovered years lie inside the
expected sequence, never that every expected year was discovered. -/
theorem C5_sequence_gap_undetected :
    check_for_all_chunk_dirs cfgSmall fsChunkGap =
      Except.ok ["/b/1977_chunk", "/b/1997_chunk"] ∧
    (1987 : Int) ∈ pyRangeStep 1977 (1977 + cfgSmall.TOTAL_YEARS_IN_SIMULATION + 1)
      cfgSmall.YEAR_INCREMENT ∧
    "1987_chunk" ∉ fsChunkGap.baseDirListing := by
  exact ⟨rfl, by decide, by decide⟩

set_option maxRecDepth 20000 in
/-- Claim C4 is refuted by the code as written: for a completeness report
containing the single year 1978, `invoke_postprocessing` performs exactly
one external invocation, whose argument list is `["1978"]` — the year
alone, with no month loop and no month argument (lines 433-438 build
`arguments = [str(cur_year)]`). -/
theorem C4_invocation_has_no_month :
    invoke_postprocessing fsEmptyChunk [("/b/1977_chunk", [1978])] =
      Except.ok ([["1978"]], [1978]) := by
  exact rfl

set_option maxRecDepth 20000 in
/-- Claim C3 is refuted by the code as written: for the non-leap year 1978
with an empty chunk directory (so every one of the 365 real daily files is
missing, including `...-01-31`), the reconstruction loop reports only 364
filenames and the January 31 file is never among them, because the
source's `DAYS_IN_MONTH` dict maps `'01'` to 30. -/
theorem C3_jan31_never_reported :
    check_for_all_files cfgSmall fsEmptyChunk "/b/1977_chunk"
        ["wrfout_d01_1977", "wrfout_d01_1978"] =
      Except.error ("Exiting due to missing files",
        missing_files_for cfgSmall "/b/1977_chunk" "wrfout_d01_1978" [] false) ∧
    (missing_files_for cfgSmall "/b/1977_chunk" "wrfout_d01_1978" [] false).length = 364 ∧
    "/b/1977_chunk/wrfout_d01_1978-01-31_00:00:00" ∉
      missing_files_for cfgSmall "/b/1977_chunk" "wrfout_d01_1978" [] false ∧
    "/b/1977_chunk/wrfout_d01_1978-01-30_00:00:00" ∈
      missing_files_for cfgSmall "/b/1977_chunk" "wrfout_d01_1978" [] false := by
  exact ⟨rfl, rfl, by decide, by decide⟩

/-- Claim C7: whenever the verification step exits with a diagnostic
(models any resolution or completeness failure detected by
`check_dirs_for_data`), the run performs no post-processing invocation at
all — `sys.exit` fires before `invoke_postprocessing` is reached. -/
theorem C7_no_invocation_after_failure (cfg : Config) (fs : FileSystem) (e : PyExit)
    (h : check_dirs_for_data cfg fs = Except.error e) :
    main_invocations cfg fs = [] := by
  unfold main_invocations
  rw [h]

/-- Witness for C7 at a concrete failing filesystem (an empty base
directory, on which the chunk resolution raises). -/
theorem C7_no_invocation_after_failure_witness :
    main_invocations cfgSmall fsEmptyBase = [] :=
  C7_no_invocation_after_failure cfgSmall fsEmptyBase
    ("IndexError: list index out of range", []) rfl

/-- Claim C2: inside `check_for_all_files`, `first_year` is the minimum
discovered file year (head of the Python-sorted year list), and the years
of interest are exactly the integers from
`first_year + (ORDINAL_START_YEAR - 1)` up to but excluding
`first_year + NUMBER_OF_YEARS_WITHIN_SIMULATION - 1`: the
`ORDINAL_START_YEAR - 1` warm-up years and the final nominal year are
excluded. -/
theorem C2_years_of_interest_window (cfg : Config) (all_years_all_files : List Int)
    (first_year : Int)
    (h : (pySorted all_years_all_files).head? = some first_year) :
    (first_year ∈ all_years_all_files ∧ ∀ x ∈ all_years_all_files, first_year ≤ x) ∧
    ∀ y : Int, y ∈ years_of_interest_of cfg first_year ↔
      (first_year + (cfg.ORDINAL_START_YEAR - 1) ≤ y ∧
       y < first_year + cfg.NUMBER_OF_YEARS_WITHIN_SIMULATION - 1) := by
  refine ⟨head_pySorted_min h, fun y => ?_⟩
  unfold years_of_interest_of
  rw [mem_pyRange]

/-- Witness for C2 at the source configuration and the concrete year list
[1979, 1977, 1981], whose minimum is 1977. -/
theorem C2_years_of_interest_window_witness :
    ((1977 : Int) ∈ [(1979 : Int), 1977, 1981] ∧
      ∀ x ∈ [(1979 : Int), 1977, 1981], (1977 : Int) ≤ x) ∧
    ∀ y : Int, y ∈ years_of_interest_of defaultConfig 1977 ↔
      (1977 + (defaultConfig.ORDINAL_START_YEAR - 1) ≤ y ∧
       y < 1977 + defaultConfig.NUMBER_OF_YEARS_WITHIN_SIMULATION - 1) :=
  C2_years_of_interest_window defaultConfig [1979, 1977, 1981] 1977 (by decide)

/-- Claim C9: the plot gate returns `ok true` exactly when every expected
plot filename (the template's static portion with the year substituted
and `.png` appended) is present in the plot output directory listing, and
`ok false` exactly when at least one is absent. -/
theorem C9_plot_gate_iff (fs : FileSystem) (output_filename_expr static_portion : String)
    (years : List Int)
    (h : template_static_portion output_filename_expr = some static_portion) :
    (plots_already_exist fs output_filename_expr years = Except.ok true ↔
      ∀ y ∈ years,
        (static_portion ++ "_" ++ toString y ++ ".png") ∈ fs.dirListing PLOT_OUTPUT_DIR) ∧
    (plots_already_exist fs output_filename_expr years = Except.ok false ↔
      ¬ ∀ y ∈ years,
        (static_portion ++ "_" ++ toString y ++ ".png") ∈ fs.dirListing PLOT_OUTPUT_DIR) := by
  have key :
      ((years.map (fun y => static_portion ++ "_" ++ toString y ++ ".png")).filter
          (fun expected => strMem (fs.dirListing PLOT_OUTPUT_DIR) expected)).length =
        (years.map (fun y => static_portion ++ "_" ++ toString y ++ ".png")).length ↔
      ∀ y ∈ years,
        (static_portion ++ "_" ++ toString y ++ ".png") ∈ fs.dirListing PLOT_OUTPUT_DIR := by
    rw [filter_length_eq_iff]
    constructor
    · intro hall y hy
      exact (strMem_iff _ _).mp (hall _ (List.mem_map_of_mem _ hy))
    · intro hall e he
      obtain ⟨y, hy, rfl⟩ := List.mem_map.mp he
      exact (strMem_iff _ _).mpr (hall y hy)
  unfold plots_already_exist
  rw [h]
  dsimp only
  by_cases hc :
      ((years.map (fun y => static_portion ++ "_" ++ toString y ++ ".png")).filter
          (fun expected => strMem (fs.dirListing PLOT_OUTPUT_DIR) expected)).length =
        (years.map (fun y => static_portion ++ "_" ++ toString y ++ ".png")).length
  · rw [if_pos hc]
    have hP := key.mp hc
    refine ⟨iff_of_true rfl hP, ?_, ?_⟩
    · intro hfalse
      exact absurd (Except.ok.inj hfalse) (by simp)
    · intro hnp
      exact absurd hP hnp
  · rw [if_neg hc]
    have hnP : ¬ ∀ y ∈ years,
        (static_portion ++ "_" ++ toString y ++ ".png") ∈ fs.dirListing PLOT_OUTPUT_DIR :=
      fun hall => hc (key.mpr hall)
    refine ⟨⟨?_, ?_⟩, iff_of_true rfl hnP⟩
    · intro hfalse
      exact absurd (Except.ok.inj hfalse) (by simp)
    · intro hP
      exact absurd hP hnP

/-- Witness for C9 at a concrete template, year list and listing. -/
theorem C9_plot_gate_iff_witness :
    (plots_already_exist fsPlots "plot_$\x7bYEAR\x7d" [1978] = Except.ok true ↔
      ∀ y ∈ [(1978 : Int)],
        ("plot" ++ "_" ++ toString y ++ ".png") ∈ fsPlots.dirListing PLOT_OUTPUT_DIR) ∧
    (plots_already_exist fsPlots "plot_$\x7bYEAR\x7d" [1978] = Except.ok false ↔
      ¬ ∀ y ∈ [(1978 : Int)],
        ("plot" ++ "_" ++ toString y ++ ".png") ∈ fsPlots.dirListing PLOT_OUTPUT_DIR) :=
  C9_plot_gate_iff fsPlots "plot_$\x7bYEAR\x7d" "plot" [1978] rfl

/-- Counterexample to claim C6 as stated: with the seventh-year-of-decade
mode inactive, the name `1984_chunk` matches the claim's pattern (4-digit
year then `_chunk`, anchored at the start), yet the source's regex
`(\d{3}7)_chunk` rejects it, so the claimed acceptance condition for the
inactive mode is false at this input. -/
theorem C6_counterexample_1984 :
    StartsWithYearChunk "1984_chunk" ∧ matchChunkPlainMode "1984_chunk" = none := by
  constructor
  · exact ⟨'1', '9', '8', '4', "_chunk".data, rfl, rfl, rfl, rfl, rfl, List.prefix_rfl⟩
  · rfl

/-- Claim C6 (amended): when seventh-year mode is active a subdirectory
name is accepted iff it contains a 4-digit run immediately followed by
`_chunk` anywhere; when the mode is inactive it is accepted iff it starts
with three digits, the literal digit 7 and then `_chunk`; and any listed
name rejected by the active pattern makes the whole run fail with the
no-chunk-directories exit. -/
theorem C6_chunk_name_patterns (cfg : Config) (fs : FileSystem) (s : String) :
    ((matchChunkSeventhMode s).isSome = true ↔ ContainsYearChunk s) ∧
    ((matchChunkPlainMode s).isSome = true ↔ StartsWithYear7Chunk s) ∧
    (s ∈ fs.baseDirListing →
      (if cfg.SEVENTH_YEAR_OF_DECADE then matchChunkSeventhMode s
       else matchChunkPlainMode s) = none →
      check_for_all_chunk_dirs cfg fs = Except.error (noChunkDirsMsg cfg, [])) := by
  refine ⟨?_, ?_, ?_⟩
  · unfold matchChunkSeventhMode
    rw [Option.isSome_map']
    rw [head?_filter_isSome]
    constructor
    · rintro ⟨i, hir, hPi⟩
      simp only [Bool.and_eq_true, beq_iff_eq, List.all_eq_true] at hPi
      obtain ⟨⟨hlen, hdig⟩, hpre⟩ := hPi
      have hi : i < s.data.length := List.mem_range.mp hir
      rw [List.length_take, List.length_drop] at hlen
      exact ⟨i, by omega, fun c hc => hdig c hc, (listIsPrefixOfB_iff _ _).mp hpre⟩
    · rintro ⟨i, hle, hdig, hpre⟩
      refine ⟨i, List.mem_range.mpr (by omega), ?_⟩
      simp only [Bool.and_eq_true, beq_iff_eq, List.all_eq_true]
      exact ⟨⟨by rw [List.length_take, List.length_drop]; omega,
        fun c hc => hdig c hc⟩, (listIsPrefixOfB_iff _ _).mpr hpre⟩
  · constructor
    · intro hsome
      unfold matchChunkPlainMode at hsome
      split at hsome
      next a b c d rest heq =>
        split at hsome
        next hcond =>
          simp only [Bool.and_eq_true, beq_iff_eq] at hcond
          obtain ⟨⟨⟨⟨ha, hb⟩, hc⟩, hd⟩, hpre⟩ := hcond
          subst hd
          exact ⟨a, b, c, rest, heq, ha, hb, hc, (listIsPrefixOfB_iff _ _).mp hpre⟩
        next => cases hsome
      next => cases hsome
    · rintro ⟨a, b, c, rest, heq, ha, hb, hc, hpre⟩
      unfold matchChunkPlainMode
      rw [heq]
      simp [ha, hb, hc, (listIsPrefixOfB_iff _ _).mpr hpre]
  · intro hmem hnone
    have hmem2 : s ∈ pySortedStr fs.baseDirListing := by
      unfold pySortedStr
      exact (List.perm_insertionSort _ _).mem_iff.mpr hmem
    have hmapped := optionMapList_none_of_mem
      (f := fun dir => if cfg.SEVENTH_YEAR_OF_DECADE then matchChunkSeventhMode dir
        else matchChunkPlainMode dir) hmem2 hnone
    unfold check_for_all_chunk_dirs
    dsimp only
    rw [hmapped]

/-- Witness for C6 at a concrete run: with the inactive mode configured
and the base directory listing `["1984_chunk"]`, the name fails the
source's pattern and the whole run exits with the no-chunk-directories
diagnostic. -/
theorem C6_chunk_name_patterns_witness :
    check_for_all_chunk_dirs cfgPlainMode fsPlain =
      Except.error (noChunkDirsMsg cfgPlainMode, []) :=
  (C6_chunk_name_patterns cfgPlainMode fsPlain "1984_chunk").2.2 (by decide) rfl

lemma pattern_step_keeps (cfg : Config) (fs : FileSystem) (chunk_dir : String)
    (yoi : List Int) (y : Int) (acc : List Int × List String × Bool) (p : String)
    (hnone : ∀ py, yearOfPattern p = some py → Int.ofNat py ≠ y)
    (hok : ∀ py, yearOfPattern p = some py → Int.ofNat py ∈ yoi →
      (glob_matches fs chunk_dir p).length =
        (if is_leap_year (Int.ofNat py) then EXPECTED_NUM_FILES_LEAP_YEAR
         else EXPECTED_NUM_FILES))
    (h1 : y ∉ acc.1) (h2 : acc.2.2 = false) :
    y ∉ (pattern_step cfg fs chunk_dir yoi acc p).1 ∧
      (pattern_step cfg fs chunk_dir yoi acc p).2.2 = false := by
  unfold pattern_step
  cases hyp : yearOfPattern p with
  | none => exact ⟨h1, h2⟩
  | some py =>
    dsimp only
    by_cases hin : (Int.ofNat py) ∈ yoi
    · rw [if_pos hin]
      have hcount := hok py hyp hin
      have hnotns : y ∉ acc.1 ++ [Int.ofNat py] := by
        intro hmem
        rcases List.mem_append.mp hmem with hmem | hmem
        · exact h1 hmem
        · rcases List.mem_singleton.mp hmem with rfl
          exact hnone py hyp rfl
      by_cases hleap : is_leap_year (Int.ofNat py) = true
      · rw [if_pos hleap]
        rw [if_pos hleap] at hcount
        rw [if_pos hcount]
        exact ⟨hnotns, h2⟩
      · rw [if_neg hleap]
        rw [if_neg hleap] at hcount
        rw [if_pos hcount]
        exact ⟨hnotns, h2⟩
    · rw [if_neg hin]
      exact ⟨h1, h2⟩

lemma foldl_pattern_step_keeps (cfg : Config) (fs : FileSystem) (chunk_dir : String)
    (yoi : List Int) (y : Int) (pats : List String) :
    ∀ (acc : List Int × List String × Bool),
    (∀ p ∈ pats, ∀ py, yearOfPattern p = some py → Int.ofNat py ≠ y) →
    (∀ p ∈ pats, ∀ py, yearOfPattern p = some py → Int.ofNat py ∈ yoi →
      (glob_matches fs chunk_dir p).length =
        (if is_leap_year (Int.ofNat py) then EXPECTED_NUM_FILES_LEAP_YEAR
         else EXPECTED_NUM_FILES)) →
    y ∉ acc.1 → acc.2.2 = false →
    y ∉ (pats.foldl (pattern_step cfg fs chunk_dir yoi) acc).1 ∧
      (pats.foldl (pattern_step cfg fs chunk_dir yoi) acc).2.2 = false := by
  induction pats with
  | nil => exact fun acc _ _ h1 h2 => ⟨h1, h2⟩
  | cons p rest ih =>
    intro acc hnone hok h1 h2
    rw [List.foldl_cons]
    have hstep := pattern_step_keeps cfg fs chunk_dir yoi y acc p
      (hnone p (List.mem_cons_self _ _)) (hok p (List.mem_cons_self _ _)) h1 h2
    exact ih (pattern_step cfg fs chunk_dir yoi acc p)
      (fun q hq => hnone q (List.mem_cons_of_mem _ hq))
      (fun q hq => hok q (List.mem_cons_of_mem _ hq))
      hstep.1 hstep.2

/-- Claim C10: when a year inside the years-of-interest window has no
discovered pattern family embedding it, and every family whose year does
fall in the window has its full complement of files, `check_for_all_files`
returns normally (no missing-file exit, no report) and the year is simply
absent from the chunk's valid-years list. -/
theorem C10_absent_year_silently_skipped (cfg : Config) (fs : FileSystem)
    (chunk_dir : String) (pats : List String) (ys : List Nat) (first_year y : Int)
    (hex : optionMapList yearOfPattern pats = some ys)
    (hhead : (pySorted (ys.map Int.ofNat)).head? = some first_year)
    (hy : y ∈ years_of_interest_of cfg first_year)
    (hnone : ∀ p ∈ pats, ∀ py, yearOfPattern p = some py → Int.ofNat py ≠ y)
    (hok : ∀ p ∈ pats, ∀ py, yearOfPattern p = some py →
      Int.ofNat py ∈ years_of_interest_of cfg first_year →
      (glob_matches fs chunk_dir p).length =
        (if is_leap_year (Int.ofNat py) then EXPECTED_NUM_FILES_LEAP_YEAR
         else EXPECTED_NUM_FILES)) :
    ∃ valid_years : List Int,
      check_for_all_files cfg fs chunk_dir pats = Except.ok [(chunk_dir, valid_years)] ∧
        y ∉ valid_years := by
  obtain ⟨t, ht⟩ : ∃ t, pySorted (ys.map Int.ofNat) = first_year :: t := by
    cases hs : pySorted (ys.map Int.ofNat) with
    | nil => rw [hs] at hhead; cases hhead
    | cons a u =>
      rw [hs] at hhead
      simp only [List.head?] at hhead
      cases hhead
      exact ⟨u, rfl⟩
  have hinv := foldl_pattern_step_keeps cfg fs chunk_dir
    (years_of_interest_of cfg first_year) y pats ([], [], false) hnone hok
    (by simp) rfl
  refine ⟨(pats.foldl (pattern_step cfg fs chunk_dir
    (years_of_interest_of cfg first_year)) ([], [], false)).1, ?_, hinv.1⟩
  unfold check_for_all_files
  rw [hex]
  dsimp only
  rw [ht]
  dsimp only
  rw [hinv.2]
  rfl

/-- Witness for C10: the chunk holds a single family for 1977, the
configured window is 1978..1988, and the year 1980 lies inside that
window with no family and no files at all; the check returns normally
with 1980 absent from the valid list. -/
theorem C10_absent_year_silently_skipped_witness :
    ∃ valid_years : List Int,
      check_for_all_files cfgSmall fsEmptyChunk "/b/1977_chunk" ["wrfout_d01_1977"] =
        Except.ok [("/b/1977_chunk", valid_years)] ∧ (1980 : Int) ∉ valid_years :=
  C10_absent_year_silently_skipped cfgSmall fsEmptyChunk "/b/1977_chunk"
    ["wrfout_d01_1977"] [1977] 1977 1980 rfl (by decide) (by decide)
    (by
      intro p hp py hpy
      rcases List.mem_singleton.mp hp with rfl
      rw [show yearOfPattern "wrfout_d01_1977" = some 1977 from rfl] at hpy
      cases hpy
      decide)
    (by
      intro p hp py hpy hin
      rcases List.mem_singleton.mp hp with rfl
      rw [show yearOfPattern "wrfout_d01_1977" = some 1977 from rfl] at hpy
      cases hpy
      exact absurd hin (by decide))

end CheckForFullData
